import Mathlib

/-!
Verification of the Power BI hook (`powerbi.py`): status normalization of
refresh-history records, lookup of a refresh by request id, error wrapping at
operation boundaries, and the workspace/dataset listing operations.

Modelling choices:
- Python mappings are association lists `List (String × PyVal)`; `dict.get`
  returns the value of the first matching key (Python dicts have unique keys,
  so this coincides with dict lookup).
- Mapping values are modelled as JSON primitives (`None`, `str`, `int`,
  `bool`); `pyStr` is Python `str(·)` on those values.
- The transport executor `KiotaRequestAdapterHook.run` is not part of this
  file's source; per the spec it returns a parsed response mapping or raises a
  transport-level `AirflowException`. Each operation is therefore a function of
  the executor's outcome `Except AirflowError Response`.
- Response mappings bind keys to either a primitive or a list of mappings
  (the `"value"` collection of list-style responses).
- A Python-level runtime error (e.g. `TypeError` from iterating a
  non-iterable), which no `except AirflowException` clause catches, is the
  `pythonError` outcome.
-/

/-- A primitive Python value, as stored in a parsed response mapping. -/
inductive PyVal where
  | null
  | str (s : String)
  | int (n : Int)
  | bool (b : Bool)
deriving Repr, DecidableEq

/-- Python `str(v)` on a primitive value. -/
def pyStr : PyVal → String
  | PyVal.null => "None"
  | PyVal.str s => s
  | PyVal.int n => toString n
  | PyVal.bool b => if b then "True" else "False"

/-- A Python mapping with primitive values. -/
abbrev PyDict := List (String × PyVal)

/-- Python `d.get(k)`: the value bound to `k`, or `None` when `k` is absent. -/
def PyDict.get (d : PyDict) (k : String) : Option PyVal :=
  (d.find? (fun kv => kv.1 == k)).map (fun kv => kv.2)

/-- Python `str(d.get(k))`: `d.get(k)` returns `None` for an absent key, and
`str(None)` is the literal string `"None"`. -/
def strGet (d : PyDict) (k : String) : String :=
  match PyDict.get d k with
  | Option.none => "None"
  | Option.some v => pyStr v

/-- The fixed-key mapping produced by `raw_to_refresh_details`
(`PowerBIDatasetRefreshFields` gives the keys `request_id`, `status`,
`error`). -/
structure RefreshDetails where
  request_id : String
  status : String
  error : String
deriving Repr, DecidableEq

namespace PowerBIDatasetRefreshStatus

/-- `PowerBIDatasetRefreshStatus.IN_PROGRESS`. -/
def IN_PROGRESS : String := "In Progress"

/-- `PowerBIDatasetRefreshStatus.FAILED`. -/
def FAILED : String := "Failed"

/-- `PowerBIDatasetRefreshStatus.COMPLETED`. -/
def COMPLETED : String := "Completed"

/-- `PowerBIDatasetRefreshStatus.DISABLED`. -/
def DISABLED : String := "Disabled"

/-- `TERMINAL_STATUSES = {FAILED, COMPLETED}` (a Python set, modelled as the
list of its elements). -/
def TERMINAL_STATUSES : List String := [FAILED, COMPLETED]

/-- `FAILURE_STATUSES = {FAILED, DISABLED}`. -/
def FAILURE_STATUSES : List String := [FAILED, DISABLED]

end PowerBIDatasetRefreshStatus

/-- `PowerBIHook.raw_to_refresh_details`: convert raw refresh details into the
mapping with keys `request_id`, `status`, `error`. -/
def raw_to_refresh_details (refresh_details : PyDict) : RefreshDetails :=
  { request_id := strGet refresh_details "requestId"
    status :=
      if strGet refresh_details "status" = "Unknown" then "In Progress"
      else strGet refresh_details "status"
    error := strGet refresh_details "serviceExceptionJson" }

/-- A transport-level `AirflowException` raised by the executor. -/
structure AirflowError where
  msg : String
deriving Repr, DecidableEq

/-- A value bound in a parsed response mapping: a primitive, or a list of
mappings (`"value"` collections). -/
inductive RespVal where
  | prim (v : PyVal)
  | list (xs : List PyDict)
deriving Repr, DecidableEq

/-- A parsed response mapping returned by the executor. -/
abbrev Response := List (String × RespVal)

/-- Python `response.get(k)` on a response mapping. -/
def Response.get (r : Response) (k : String) : Option RespVal :=
  (r.find? (fun kv => kv.1 == k)).map (fun kv => kv.2)

/-- The exceptions an operation of `PowerBIHook` can let escape:
`PowerBIDatasetRefreshException`, `PowerBIWorkspaceListException`,
`PowerBIDatasetListException` (all subclasses of `AirflowException`), or an
uncaught Python runtime error (`TypeError` / `AttributeError`). -/
inductive PowerBIExc where
  | datasetRefresh (msg : String)
  | workspaceList (msg : String)
  | datasetList (msg : String)
  | pythonError
deriving Repr, DecidableEq

/-- `PowerBIHook.get_refresh_history`, as a function of the executor outcome.
On an executor error the `except AirflowException` clause raises
`PowerBIDatasetRefreshException("Failed to retrieve refresh history")`.
Otherwise `response.get("value")` (no default) is iterated: when it is a list
of mappings each element goes through `raw_to_refresh_details`; when the key
is absent (`None`) or bound to a primitive, iteration (or `.get` on a
non-mapping element) raises an uncaught Python runtime error. -/
def get_refresh_history (run_result : Except AirflowError Response) :
    Except PowerBIExc (List RefreshDetails) :=
  match run_result with
  | Except.error _ =>
      Except.error (PowerBIExc.datasetRefresh "Failed to retrieve refresh history")
  | Except.ok response =>
      match Response.get response "value" with
      | Option.some (RespVal.list refresh_histories) =>
          Except.ok (refresh_histories.map raw_to_refresh_details)
      | _ => Except.error PowerBIExc.pythonError

/-- `PowerBIHook.get_refresh_details_by_refresh_id`: fetch the history, raise
`PowerBIDatasetRefreshException` naming `refresh_id` when the history is empty
or `refresh_id` is not among the request ids, otherwise index the history at
`refresh_ids.index(refresh_id)`. The `getD` default is unreachable: the index
of a member of `refresh_ids` is always in range. -/
def get_refresh_details_by_refresh_id (run_result : Except AirflowError Response)
    (refresh_id : String) : Except PowerBIExc RefreshDetails :=
  match get_refresh_history run_result with
  | Except.error e => Except.error e
  | Except.ok refresh_histories =>
      if refresh_histories.length = 0 then
        Except.error (PowerBIExc.datasetRefresh
          ("Unable to fetch the details of dataset refresh with Request Id: " ++ refresh_id))
      else
        let refresh_ids := refresh_histories.map (fun h => h.request_id)
        if refresh_id ∈ refresh_ids then
          Except.ok (refresh_histories.getD (refresh_ids.indexOf refresh_id)
            (RefreshDetails.mk "None" "None" "None"))
        else
          Except.error (PowerBIExc.datasetRefresh
            ("Unable to fetch the details of dataset refresh with Request Id: " ++ refresh_id))

/-- `PowerBIHook.trigger_dataset_refresh`: on an executor error raise
`PowerBIDatasetRefreshException("Failed to trigger dataset refresh.")`;
otherwise return `response.get("requestid")` (`None` when the key is absent —
Python does not enforce the declared `str` return type). -/
def trigger_dataset_refresh (run_result : Except AirflowError Response) :
    Except PowerBIExc (Option RespVal) :=
  match run_result with
  | Except.error _ =>
      Except.error (PowerBIExc.datasetRefresh "Failed to trigger dataset refresh.")
  | Except.ok response => Except.ok (Response.get response "requestid")

/-- `PowerBIHook.get_workspace_list`: on an executor error raise
`PowerBIWorkspaceListException`; otherwise take `response.get("value", [])`
and keep `ws["id"]` for the elements with an `"id"` key. When `"value"` is
bound to a string, Python iterates its characters and the substring test
`"id" in ch` is false for every single character, so the result is `[]`; any
other primitive is not iterable and raises an uncaught `TypeError`. -/
def get_workspace_list (run_result : Except AirflowError Response) :
    Except PowerBIExc (List PyVal) :=
  match run_result with
  | Except.error _ =>
      Except.error (PowerBIExc.workspaceList "Failed to get workspace ID list.")
  | Except.ok response =>
      match Response.get response "value" with
      | Option.none => Except.ok []
      | Option.some (RespVal.list list_of_workspaces) =>
          Except.ok ((list_of_workspaces.filter
              (fun ws => (PyDict.get ws "id").isSome)).map
            (fun ws => (PyDict.get ws "id").getD PyVal.null))
      | Option.some (RespVal.prim (PyVal.str _)) => Except.ok []
      | Option.some (RespVal.prim _) => Except.error PowerBIExc.pythonError

/-- `PowerBIHook.get_dataset_list`: same shape as `get_workspace_list`, with
`PowerBIDatasetListException("Failed to get dataset ID list.")`. -/
def get_dataset_list (run_result : Except AirflowError Response) :
    Except PowerBIExc (List PyVal) :=
  match run_result with
  | Except.error _ =>
      Except.error (PowerBIExc.datasetList "Failed to get dataset ID list.")
  | Except.ok response =>
      match Response.get response "value" with
      | Option.none => Except.ok []
      | Option.some (RespVal.list list_of_datasets) =>
          Except.ok ((list_of_datasets.filter
              (fun ds => (PyDict.get ds "id").isSome)).map
            (fun ds => (PyDict.get ds "id").getD PyVal.null))
      | Option.some (RespVal.prim (PyVal.str _)) => Except.ok []
      | Option.some (RespVal.prim _) => Except.error PowerBIExc.pythonError

/-- `PowerBIHook.cancel_dataset_refresh`: no `try`/`except` — the executor's
outcome passes through unchanged (its error channel is the executor's own
`AirflowError`, never a hook-level domain exception). -/
def cancel_dataset_refresh (run_result : Except AirflowError Response) :
    Except AirflowError Unit :=
  match run_result with
  | Except.error e => Except.error e
  | Except.ok _ => Except.ok ()

/-! ### Helper lemmas -/

/-- `l.getD i d` is `l.get ⟨i, hi⟩` when the index is in range. -/
theorem getD_eq_get_of_lt {α : Type} (l : List α) (i : Nat) (hi : i < l.length) (d : α) :
    l.getD i d = l.get ⟨i, hi⟩ := by
  simp [List.getD_eq_getElem?_getD, List.getElem?_eq_getElem hi]

/-- `indexOf` returns the index of the first occurrence: if `a` sits at index
`i` and at no earlier index, then `l.indexOf a = i`. -/
theorem indexOf_eq_of_first (l : List String) (a : String) (i : Nat) (hi : i < l.length)
    (ha : l.get ⟨i, hi⟩ = a)
    (hfirst : ∀ j (hj : j < i), l.get ⟨j, Nat.lt_trans hj hi⟩ ≠ a) :
    l.indexOf a = i := by
  induction l generalizing i with
  | nil => exact absurd hi (Nat.not_lt_zero i)
  | cons x xs ih =>
      cases i with
      | zero =>
          simp only [List.get] at ha
          simp [List.indexOf_cons, ha]
      | succ n =>
          have hx : x ≠ a := hfirst 0 (Nat.succ_pos n)
          have hn : n < xs.length := Nat.lt_of_succ_lt_succ hi
          have hrec : xs.indexOf a = n := by
            refine ih n hn ha (fun j hj => ?_)
            exact hfirst (j + 1) (Nat.succ_lt_succ hj)
          simp [List.indexOf_cons, hx, hrec]

/-- A filtered-then-projected list equals the `filterMap` of the projection. -/
theorem filter_isSome_map_getD {α β : Type} (f : α → Option β) (d : β) (l : List α) :
    (l.filter (fun x => (f x).isSome)).map (fun x => (f x).getD d) = l.filterMap f := by
  induction l with
  | nil => rfl
  | cons x xs ih =>
      cases hfx : f x <;>
        simp [List.filter_cons, List.filterMap_cons, hfx, ih]

/-! ### Claims -/

/-- C1: `raw_to_refresh_details` is total on mappings; its `request_id` and
`error` fields are the stringified values of keys `requestId` and
`serviceExceptionJson` (the literal string `"None"` when the key is absent),
and its `status` field is `"In Progress"` when the raw status stringifies to
`"Unknown"` and the raw status string verbatim otherwise. -/
theorem raw_to_refresh_details_spec (d : PyDict) :
    (raw_to_refresh_details d).request_id =
      (match PyDict.get d "requestId" with
       | Option.none => "None"
       | Option.some v => pyStr v)
    ∧ (raw_to_refresh_details d).error =
      (match PyDict.get d "serviceExceptionJson" with
       | Option.none => "None"
       | Option.some v => pyStr v)
    ∧ (strGet d "status" = "Unknown" → (raw_to_refresh_details d).status = "In Progress")
    ∧ (strGet d "status" ≠ "Unknown" →
        (raw_to_refresh_details d).status = strGet d "status") := by
  refine ⟨rfl, rfl, fun h => ?_, fun h => ?_⟩
  · simp [raw_to_refresh_details, h]
  · simp [raw_to_refresh_details, h]

/-- C1 witness: on the mapping missing all three keys, every field is the
placeholder string `"None"` (in particular normalization succeeds). -/
theorem raw_to_refresh_details_spec_witness :
    (raw_to_refresh_details []).request_id = "None"
    ∧ (raw_to_refresh_details []).status = "None"
    ∧ (raw_to_refresh_details []).error = "None" := by
  have h := raw_to_refresh_details_spec []
  exact ⟨h.1, h.2.2.2 (by decide), h.2.1⟩

/-- C2 counterexample: the raw status `"Bogus"` is passed through verbatim, so
the normalized status is not one of the four enumerated values. -/
theorem status_leak_counterexample :
    (raw_to_refresh_details [("status", PyVal.str "Bogus")]).status = "Bogus"
    ∧ (raw_to_refresh_details [("status", PyVal.str "Bogus")]).status ∉
        [PowerBIDatasetRefreshStatus.IN_PROGRESS, PowerBIDatasetRefreshStatus.FAILED,
         PowerBIDatasetRefreshStatus.COMPLETED, PowerBIDatasetRefreshStatus.DISABLED] := by
  constructor
  · rfl
  · decide

/-- C2 (amended): when the raw status stringifies to `"Unknown"` or to one of
the four enumerated values, the normalized status is one of the four
enumerated values; any other raw status string is passed through verbatim. -/
theorem status_in_enum_of_known_raw (d : PyDict)
    (h : strGet d "status" ∈
      ["Unknown", PowerBIDatasetRefreshStatus.IN_PROGRESS,
       PowerBIDatasetRefreshStatus.FAILED, PowerBIDatasetRefreshStatus.COMPLETED,
       PowerBIDatasetRefreshStatus.DISABLED]) :
    (raw_to_refresh_details d).status ∈
      [PowerBIDatasetRefreshStatus.IN_PROGRESS, PowerBIDatasetRefreshStatus.FAILED,
       PowerBIDatasetRefreshStatus.COMPLETED, PowerBIDatasetRefreshStatus.DISABLED] := by
  simp only [List.mem_cons, List.not_mem_nil, or_false] at h ⊢
  rcases h with h | h | h | h | h <;>
    simp [raw_to_refresh_details, h, PowerBIDatasetRefreshStatus.IN_PROGRESS,
      PowerBIDatasetRefreshStatus.FAILED, PowerBIDatasetRefreshStatus.COMPLETED,
      PowerBIDatasetRefreshStatus.DISABLED]

/-- C2 witness: a raw status `"Unknown"` normalizes into the enumerated set. -/
theorem status_in_enum_of_known_raw_witness :
    (raw_to_refresh_details [("status", PyVal.str "Unknown")]).status ∈
      [PowerBIDatasetRefreshStatus.IN_PROGRESS, PowerBIDatasetRefreshStatus.FAILED,
       PowerBIDatasetRefreshStatus.COMPLETED, PowerBIDatasetRefreshStatus.DISABLED] :=
  status_in_enum_of_known_raw [("status", PyVal.str "Unknown")] (by decide)

/-- C5: `FAILURE_STATUSES` holds exactly `Failed` and `Disabled`,
`TERMINAL_STATUSES` exactly `Failed` and `Completed`; in particular `Disabled`
is a failure status but not a terminal status. -/
theorem status_sets_spec :
    (∀ s : String, s ∈ PowerBIDatasetRefreshStatus.FAILURE_STATUSES ↔
      (s = PowerBIDatasetRefreshStatus.FAILED ∨ s = PowerBIDatasetRefreshStatus.DISABLED))
    ∧ (∀ s : String, s ∈ PowerBIDatasetRefreshStatus.TERMINAL_STATUSES ↔
      (s = PowerBIDatasetRefreshStatus.FAILED ∨ s = PowerBIDatasetRefreshStatus.COMPLETED))
    ∧ PowerBIDatasetRefreshStatus.DISABLED ∈ PowerBIDatasetRefreshStatus.FAILURE_STATUSES
    ∧ PowerBIDatasetRefreshStatus.DISABLED ∉ PowerBIDatasetRefreshStatus.TERMINAL_STATUSES := by
  refine ⟨fun s => ?_, fun s => ?_, by decide, by decide⟩
  · simp [PowerBIDatasetRefreshStatus.FAILURE_STATUSES]
  · simp [PowerBIDatasetRefreshStatus.TERMINAL_STATUSES]

/-- `get` on a mapped list is the function applied to `get` on the list. -/
theorem get_map_eq {α β : Type} (f : α → β) (l : List α) (i : Nat) (hi : i < l.length)
    (hi2 : i < (l.map f).length) :
    (l.map f).get ⟨i, hi2⟩ = f (l.get ⟨i, hi⟩) := by
  induction l generalizing i with
  | nil => exact absurd hi (Nat.not_lt_zero i)
  | cons x xs ih =>
      cases i with
      | zero => rfl
      | succ n => exact ih n (Nat.lt_of_succ_lt_succ hi) (Nat.lt_of_succ_lt_succ hi2)

/-- C3: given that the history fetch succeeded with list `hs`,
`get_refresh_details_by_refresh_id` raises `PowerBIDatasetRefreshException`
with the message naming `refresh_id` exactly when `hs` is empty or no record's
`request_id` equals `refresh_id`; and when some record matches, it returns a
record of `hs` whose `request_id` equals `refresh_id`. -/
theorem get_refresh_details_spec (run_result : Except AirflowError Response)
    (refresh_id : String) (hs : List RefreshDetails)
    (hfetch : get_refresh_history run_result = Except.ok hs) :
    (get_refresh_details_by_refresh_id run_result refresh_id =
        Except.error (PowerBIExc.datasetRefresh
          ("Unable to fetch the details of dataset refresh with Request Id: " ++ refresh_id))
      ↔ (hs = [] ∨ ∀ r ∈ hs, r.request_id ≠ refresh_id))
    ∧ ((∃ r0 ∈ hs, r0.request_id = refresh_id) →
        ∃ r, get_refresh_details_by_refresh_id run_result refresh_id = Except.ok r
          ∧ r ∈ hs ∧ r.request_id = refresh_id) := by
  have e1 : get_refresh_details_by_refresh_id run_result refresh_id =
      (if hs.length = 0 then
        Except.error (PowerBIExc.datasetRefresh
          ("Unable to fetch the details of dataset refresh with Request Id: " ++ refresh_id))
      else if refresh_id ∈ hs.map (fun h => h.request_id) then
        Except.ok (hs.getD ((hs.map (fun h => h.request_id)).indexOf refresh_id)
          (RefreshDetails.mk "None" "None" "None"))
      else
        Except.error (PowerBIExc.datasetRefresh
          ("Unable to fetch the details of dataset refresh with Request Id: " ++ refresh_id))) := by
    unfold get_refresh_details_by_refresh_id
    rw [hfetch]
  by_cases hemp : hs.length = 0
  · rw [List.length_eq_zero] at hemp
    subst hemp
    rw [e1]
    simp
  · have hlemma : refresh_id ∈ hs.map (fun h => h.request_id) ↔
        ∃ r0 ∈ hs, r0.request_id = refresh_id := by
      simp [List.mem_map]
    by_cases hmem : refresh_id ∈ hs.map (fun h => h.request_id)
    · rw [e1, if_neg hemp, if_pos hmem]
      have hlt : (hs.map (fun h => h.request_id)).indexOf refresh_id <
          (hs.map (fun h => h.request_id)).length :=
        List.indexOf_lt_length.mpr hmem
      have hlt2 : (hs.map (fun h => h.request_id)).indexOf refresh_id < hs.length := by
        simpa using hlt
      have hgetid : ((hs.map (fun h => h.request_id)).get ⟨_, hlt⟩) = refresh_id :=
        List.indexOf_get hlt
      rw [get_map_eq (fun h => h.request_id) hs _ hlt2 hlt] at hgetid
      constructor
      · constructor
        · intro hcontra
          exact absurd hcontra (by simp)
        · intro hcontra
          rcases hcontra with hcontra | hcontra
          · subst hcontra; simp at hmem
          · rcases hlemma.mp hmem with ⟨r0, hr0, hr0id⟩
            exact absurd hr0id (hcontra r0 hr0)
      · intro _
        refine ⟨hs.get ⟨_, hlt2⟩, ?_, List.get_mem hs _ hlt2, hgetid⟩
        rw [getD_eq_get_of_lt hs _ hlt2]
    · rw [e1, if_neg hemp, if_neg hmem]
      constructor
      · constructor
        · intro _
          right
          intro r hr hrid
          exact hmem (hlemma.mpr ⟨r, hr, hrid⟩)
        · intro _; rfl
      · intro hex
        exact absurd (hlemma.mpr hex) hmem

/-- C3 witness: with a one-record history for request id `"r1"`, looking up
`"r1"` returns that record. -/
theorem get_refresh_details_spec_witness :
    ∃ r, get_refresh_details_by_refresh_id
        (Except.ok [("value", RespVal.list [[("requestId", PyVal.str "r1")]])]) "r1" =
        Except.ok r
      ∧ r ∈ [raw_to_refresh_details [("requestId", PyVal.str "r1")]]
      ∧ r.request_id = "r1" :=
  (get_refresh_details_spec
      (Except.ok [("value", RespVal.list [[("requestId", PyVal.str "r1")]])]) "r1"
      [raw_to_refresh_details [("requestId", PyVal.str "r1")]] rfl).2
    ⟨raw_to_refresh_details [("requestId", PyVal.str "r1")], by decide, by decide⟩

/-- C9: if the fetched history holds a record with `request_id = refresh_id`
at index `i` and at no earlier index, the lookup returns the record at `i`
(the earliest-index match). -/
theorem first_match_returned (run_result : Except AirflowError Response)
    (refresh_id : String) (hs : List RefreshDetails)
    (hfetch : get_refresh_history run_result = Except.ok hs)
    (i : Nat) (hi : i < hs.length)
    (hmatch : (hs.get ⟨i, hi⟩).request_id = refresh_id)
    (hfirst : ∀ j (hj : j < i), (hs.get ⟨j, Nat.lt_trans hj hi⟩).request_id ≠ refresh_id) :
    get_refresh_details_by_refresh_id run_result refresh_id = Except.ok (hs.get ⟨i, hi⟩) := by
  have e1 : get_refresh_details_by_refresh_id run_result refresh_id =
      (if hs.length = 0 then
        Except.error (PowerBIExc.datasetRefresh
          ("Unable to fetch the details of dataset refresh with Request Id: " ++ refresh_id))
      else if refresh_id ∈ hs.map (fun h => h.request_id) then
        Except.ok (hs.getD ((hs.map (fun h => h.request_id)).indexOf refresh_id)
          (RefreshDetails.mk "None" "None" "None"))
      else
        Except.error (PowerBIExc.datasetRefresh
          ("Unable to fetch the details of dataset refresh with Request Id: " ++ refresh_id))) := by
    unfold get_refresh_details_by_refresh_id
    rw [hfetch]
  have hemp : ¬ hs.length = 0 := by
    intro h
    rw [h] at hi
    exact Nat.not_lt_zero i hi
  have hmem : refresh_id ∈ hs.map (fun h => h.request_id) := by
    rw [← hmatch]
    exact List.mem_map_of_mem _ (List.get_mem hs i hi)
  have hlen : i < (hs.map (fun h => h.request_id)).length := by simpa using hi
  have hidx : (hs.map (fun h => h.request_id)).indexOf refresh_id = i := by
    refine indexOf_eq_of_first _ refresh_id i hlen ?_ ?_
    · rw [get_map_eq (fun h => h.request_id) hs i hi hlen]
      exact hmatch
    · intro j hj
      rw [get_map_eq (fun h => h.request_id) hs j (Nat.lt_trans hj hi)
        (Nat.lt_trans hj hlen)]
      exact hfirst j hj
  rw [e1, if_neg hemp, if_pos hmem, hidx, getD_eq_get_of_lt hs i hi]

/-- C9 witness: with two history records both carrying request id `"r1"`, the
lookup returns the first one (status `"Completed"`), not the second. -/
theorem first_match_returned_witness :
    get_refresh_details_by_refresh_id
      (Except.ok [("value", RespVal.list
        [[("requestId", PyVal.str "r1"), ("status", PyVal.str "Completed")],
         [("requestId", PyVal.str "r1"), ("status", PyVal.str "Failed")]])]) "r1" =
      Except.ok (RefreshDetails.mk "r1" "Completed" "None") := by
  have h := first_match_returned
    (Except.ok [("value", RespVal.list
      [[("requestId", PyVal.str "r1"), ("status", PyVal.str "Completed")],
       [("requestId", PyVal.str "r1"), ("status", PyVal.str "Failed")]])]) "r1"
    [raw_to_refresh_details [("requestId", PyVal.str "r1"), ("status", PyVal.str "Completed")],
     raw_to_refresh_details [("requestId", PyVal.str "r1"), ("status", PyVal.str "Failed")]]
    rfl 0 (by decide) (by decide) (fun j hj => absurd hj (Nat.not_lt_zero j))
  exact h.trans rfl

/-- C4: every executor error inside `get_refresh_history` and
`trigger_dataset_refresh` is re-raised as `PowerBIDatasetRefreshException`
with the fixed operation-specific message (the executor error's own detail is
discarded — the message never depends on it); and when the executor succeeds
with a response of the documented shape, neither operation raises at all. -/
theorem executor_errors_wrapped (e : AirflowError) (response : Response)
    (hs : List PyDict)
    (hv : Response.get response "value" = Option.some (RespVal.list hs)) :
    get_refresh_history (Except.error e) =
        Except.error (PowerBIExc.datasetRefresh "Failed to retrieve refresh history")
    ∧ trigger_dataset_refresh (Except.error e) =
        Except.error (PowerBIExc.datasetRefresh "Failed to trigger dataset refresh.")
    ∧ get_refresh_history (Except.ok response) =
        Except.ok (hs.map raw_to_refresh_details)
    ∧ (∀ resp : Response, ∃ v, trigger_dataset_refresh (Except.ok resp) = Except.ok v) := by
  refine ⟨rfl, rfl, ?_, fun resp => ⟨Response.get resp "requestid", rfl⟩⟩
  simp only [get_refresh_history, hv]

/-- C4 witness: a concrete executor error is wrapped with the fixed messages,
and a concrete well-shaped response round-trips. -/
theorem executor_errors_wrapped_witness :
    get_refresh_history (Except.error (AirflowError.mk "socket timeout")) =
        Except.error (PowerBIExc.datasetRefresh "Failed to retrieve refresh history")
    ∧ trigger_dataset_refresh (Except.error (AirflowError.mk "socket timeout")) =
        Except.error (PowerBIExc.datasetRefresh "Failed to trigger dataset refresh.") :=
  have h := executor_errors_wrapped (AirflowError.mk "socket timeout")
    [("value", RespVal.list [])] [] rfl
  ⟨h.1, h.2.1⟩

/-- C6: when the executor call succeeds and the response binds `"requestid"`
to a value, `trigger_dataset_refresh` returns exactly that value. -/
theorem trigger_returns_requestid (response : Response) (v : RespVal)
    (h : Response.get response "requestid" = Option.some v) :
    trigger_dataset_refresh (Except.ok response) = Except.ok (Option.some v) := by
  simp only [trigger_dataset_refresh, h]

/-- C6 witness: the response binding `"requestid"` to `"abc123"` yields
`"abc123"`. -/
theorem trigger_returns_requestid_witness :
    trigger_dataset_refresh (Except.ok [("requestid", RespVal.prim (PyVal.str "abc123"))]) =
      Except.ok (Option.some (RespVal.prim (PyVal.str "abc123"))) :=
  trigger_returns_requestid [("requestid", RespVal.prim (PyVal.str "abc123"))]
    (RespVal.prim (PyVal.str "abc123")) rfl

/-- C7: when the response binds `"value"` to a list of mappings, both listing
operations return exactly the `"id"` values of the elements that have an
`"id"` key, in order (`filterMap` of the `"id"` lookup); elements lacking
`"id"` are silently dropped. -/
theorem list_ids_extracted (response : Response) (items : List PyDict)
    (h : Response.get response "value" = Option.some (RespVal.list items)) :
    get_workspace_list (Except.ok response) =
        Except.ok (items.filterMap (fun it => PyDict.get it "id"))
    ∧ get_dataset_list (Except.ok response) =
        Except.ok (items.filterMap (fun it => PyDict.get it "id")) := by
  constructor
  · simp only [get_workspace_list, h]
    rw [filter_isSome_map_getD (fun it => PyDict.get it "id") PyVal.null items]
  · simp only [get_dataset_list, h]
    rw [filter_isSome_map_getD (fun it => PyDict.get it "id") PyVal.null items]

/-- C7 witness: of three elements, the middle one lacking `"id"` is dropped
and the other two ids are returned in order. -/
theorem list_ids_extracted_witness :
    get_workspace_list (Except.ok [("value", RespVal.list
        [[("id", PyVal.str "w1")], [("name", PyVal.str "x")], [("id", PyVal.str "w2")]])]) =
      Except.ok [PyVal.str "w1", PyVal.str "w2"] :=
  have h := list_ids_extracted
    [("value", RespVal.list
      [[("id", PyVal.str "w1")], [("name", PyVal.str "x")], [("id", PyVal.str "w2")]])]
    [[("id", PyVal.str "w1")], [("name", PyVal.str "x")], [("id", PyVal.str "w2")]] rfl
  h.1.trans rfl

/-- C8: `cancel_dataset_refresh` wraps nothing: an executor error passes to
the caller unmodified (its error channel stays the executor's `AirflowError`
type, so no hook-level domain exception can be produced), and a successful
call returns unit. -/
theorem cancel_propagates (e : AirflowError) (response : Response) :
    cancel_dataset_refresh (Except.error e) = Except.error e
    ∧ cancel_dataset_refresh (Except.ok response) = Except.ok () :=
  ⟨rfl, rfl⟩

/-- C10: when the response mapping lacks the `"value"` key, both listing
operations return the empty list (the Python `.get("value", [])` default)
rather than raising. -/
theorem missing_value_key_empty (response : Response)
    (h : Response.get response "value" = Option.none) :
    get_workspace_list (Except.ok response) = Except.ok []
    ∧ get_dataset_list (Except.ok response) = Except.ok [] := by
  constructor
  · simp only [get_workspace_list, h]
  · simp only [get_dataset_list, h]

/-- C10 witness: the empty response mapping yields the empty list from both
listing operations. -/
theorem missing_value_key_empty_witness :
    get_workspace_list (Except.ok []) = Except.ok []
    ∧ get_dataset_list (Except.ok []) = Except.ok [] :=
  missing_value_key_empty [] rfl
